import Mathlib

/-!
# Verification of the AccelProcure map-insight aggregation subsystem

Shallow embedding of the map-insight aggregation core of the AccelProcure
repository, together with theorems settling the frozen claims about it.

The embedded source locations are:

* `src/api/ai/mapInsights.js` — the `mapInsightsHandler` Express handler
  (store query, provider fallback, error branches) and the `clusterPoints`
  helper of the older default handler in the same file;
* `src/services/analyticsService.js` — the `getCachedAnalytics` TTL cache;
* the admin-dashboard client (`src/unnamed/part_009`) — `mergeMetricSnapshots`;
* the AI router (`src/unnamed/part_018`) — the route table.

Machine-level details that the claims do not depend on (floating-point
Haversine distances, opaque JSON payloads passed through verbatim) are
abstracted by type or predicate parameters; every branch decision and every
field that a claim mentions is modelled explicitly from the source.
-/

namespace MapInsights

/-- JSON scalar values appearing in the handler's response bodies. -/
inductive JVal where
  | str (s : String)
  | num (n : Int)
  deriving DecidableEq, Repr

/-- A JSON object body, as the ordered key/value list that
`res.json({...})` serializes. A key whose JS value is `undefined` is
dropped by `JSON.stringify`, hence simply absent from the list. -/
abbrev JBody := List (String × JVal)

/-- First value bound to a key in a JSON body. -/
def bodyGet (b : JBody) (k : String) : Option JVal :=
  (b.find? (fun p => p.1 == k)).map (fun p => p.2)

/-- An Express response: the status passed to `res.status` and the JSON
body passed to `res.json`. -/
structure HttpResponse where
  status : Nat
  body : JBody
  deriving DecidableEq, Repr

/-- The `map_layers` row as `mapInsightsHandler` reads it: only the
`statistics` and `hotspots` columns are consulted. Their element types are
opaque to the handler (`statistics` is forwarded into the prompt verbatim,
hotspot entries are only counted), so they are type parameters. -/
structure MapLayers (σ η : Type) where
  statistics : Option σ
  hotspots : Option (List η)

/-- Outcome of `await supabase.from('map_layers').select('*').maybeSingle()`:
the awaited promise either rejects (caught by the handler's `try/catch`) or
resolves to a `{ data, error }` pair. -/
inductive StoreOutcome (σ η : Type) where
  | throws (msg : String)
  | result (error : Option String) (data : Option (MapLayers σ η))

/-- Outcome of the completion-provider side: `getOpenAiClient()` returned
`null`, or the completion call resolved with
`completion.choices?.[0]?.message?.content` (possibly undefined), or it
threw. -/
inductive AiOutcome where
  | absent
  | ok (content : Option String)
  | throws (msg : String)

/-- The `insightContext` object built by the handler:
`region: region || 'global'`, `stats: layers?.statistics || {}`,
`hotSpots: layers?.hotspots || []`. `stats := none` stands for the `{}`
default. -/
structure InsightContext (σ η : Type) where
  region : String
  stats : Option σ
  hotSpots : List η

/-- `region || 'global'`: an absent or empty (falsy) query parameter falls
back to the sentinel. -/
def regionOrGlobal (region : Option String) : String :=
  match region with
  | none => "global"
  | some r => if r = "" then "global" else r

/-- Builds the handler's `insightContext` from the request's `region` query
parameter and the store row. -/
def insightContext (region : Option String) (data : Option (MapLayers σ η)) :
    InsightContext σ η :=
  { region := regionOrGlobal region
    stats := data.bind (fun l => l.statistics)
    hotSpots := (data.bind (fun l => l.hotspots)).getD [] }

/-- The template string of the no-provider branch:
`` `Region ${...} currently has ${...} hot spots tracked.` ``. -/
def fallbackSummary (region : String) (hotSpotCount : Nat) : String :=
  "Region " ++ region ++ " currently has " ++ toString hotSpotCount ++
    " hot spots tracked."

/-- Shallow embedding of `mapInsightsHandler`
(`src/api/ai/mapInsights.js`): the response is a function of the `region`
query parameter, the store-query outcome, and the provider outcome.

* a rejected store promise reaches the outer `catch` → 500, generic body;
* a resolved query with `error` set → 400 with
  `{ error: 'Unable to load map data', details: error.message }`;
* provider client absent → 200 with the templated fallback string and
  `provider: 'fallback'`;
* provider call throws → outer `catch` → 500, generic body;
* provider call resolves → 200 with the completion content (key dropped
  when the content is undefined) and `provider: 'openai'`. -/
def mapInsightsHandler (region : Option String) (store : StoreOutcome σ η)
    (ai : AiOutcome) : HttpResponse :=
  match store with
  | .throws _ => ⟨500, [("error", .str "Unable to generate map insights")]⟩
  | .result (some msg) _ =>
      ⟨400, [("error", .str "Unable to load map data"), ("details", .str msg)]⟩
  | .result none data =>
      let ctx := insightContext region data
      match ai with
      | .absent =>
          ⟨200, [("summary", .str (fallbackSummary ctx.region ctx.hotSpots.length)),
                 ("provider", .str "fallback")]⟩
      | .throws _ => ⟨500, [("error", .str "Unable to generate map insights")]⟩
      | .ok content =>
          ⟨200, (match content with
                 | some s => [("summary", JVal.str s)]
                 | none => []) ++ [("provider", .str "openai")]⟩

end MapInsights

namespace AnalyticsService

/-- `const CACHE_TTL = 5 * 60 * 1000` (`src/services/analyticsService.js`). -/
def CACHE_TTL : Int := 5 * 60 * 1000

/-- The value stored per key: `{ data, timestamp: now }`. -/
structure CacheEntry (α : Type) where
  data : α
  timestamp : Int
  deriving DecidableEq, Repr

/-- The `analyticsCache` JS `Map`, modelled as an insertion-ordered
association list with unique keys maintained by `cacheSet`. -/
abbrev Cache (α : Type) := List (String × CacheEntry α)

/-- `analyticsCache.get(key)`. -/
def cacheGet (c : Cache α) (k : String) : Option (CacheEntry α) :=
  (c.find? (fun p => p.1 == k)).map (fun p => p.2)

/-- `analyticsCache.set(key, e)`: replaces the binding in place, or appends
a fresh one — JS `Map.set` semantics. -/
def cacheSet (c : Cache α) (k : String) (e : CacheEntry α) : Cache α :=
  match c with
  | [] => [(k, e)]
  | (k', e') :: rest =>
      if k' == k then (k, e) :: rest else (k', e') :: cacheSet rest k e

/-- Result of one `getCachedAnalytics` call: the returned value, the cache
after the call, and whether `fetchFn` was invoked. -/
structure CacheResult (α : Type) where
  result : α
  cache : Cache α
  loaderInvoked : Bool
  deriving DecidableEq, Repr

/-- Shallow embedding of `getCachedAnalytics(key, fetchFn)`
(`src/services/analyticsService.js`): `Date.now()` is the explicit `now`
argument, the module-level `analyticsCache` is passed and returned
explicitly, and the loader is a pure function of no arguments. -/
def getCachedAnalytics (key : String) (fetchFn : Unit → α) (now : Int)
    (cache : Cache α) : CacheResult α :=
  match cacheGet cache key with
  | some cached =>
      if now - cached.timestamp < CACHE_TTL then
        ⟨cached.data, cache, false⟩
      else
        let data := fetchFn ()
        ⟨data, cacheSet cache key ⟨data, now⟩, true⟩
  | none =>
      let data := fetchFn ()
      ⟨data, cacheSet cache key ⟨data, now⟩, true⟩

/-!
## Interleaving model for concurrent `getCachedAnalytics` calls

`getCachedAnalytics` has exactly one suspension point: `await fetchFn()`.
On the single-threaded event loop a call therefore executes as two atomic
segments against the shared cache: the synchronous prefix up to the
`await` (the cache check, and on a miss the invocation of `fetchFn`), and
the resumption after the loader's promise settles (store and return).
The two segments are modelled as explicit steps on a shared state, so any
interleaving of concurrent calls is a sequence of such steps.
-/

/-- The shared mutable state: the module-level cache plus an invocation
counter for the loader (observability of "loader invoked exactly once"). -/
structure SharedState (α : Type) where
  cache : Cache α
  loaderInvocations : Nat
  deriving DecidableEq, Repr

/-- Where a single call stands: finished with a result, or suspended on
`await fetchFn()`. -/
inductive CallState (α : Type) where
  | awaitingLoader
  | done (result : α)
  deriving DecidableEq, Repr

/-- Synchronous prefix of one `getCachedAnalytics(key, fetchFn)` call: the
cache check; on a valid entry the call completes immediately, otherwise
`fetchFn()` is invoked and the call suspends on its promise. -/
def checkStep (key : String) (now : Int) (s : SharedState α) :
    SharedState α × CallState α :=
  match cacheGet s.cache key with
  | some cached =>
      if now - cached.timestamp < CACHE_TTL then (s, .done cached.data)
      else ({ s with loaderInvocations := s.loaderInvocations + 1 }, .awaitingLoader)
  | none => ({ s with loaderInvocations := s.loaderInvocations + 1 }, .awaitingLoader)

/-- Resumption of a suspended call once its loader promise resolves with
`v`: `analyticsCache.set(key, { data, timestamp: now })` and return. -/
def resumeStep (key : String) (now : Int) (v : α) (s : SharedState α) :
    SharedState α × CallState α :=
  ({ s with cache := cacheSet s.cache key ⟨v, now⟩ }, .done v)

/-- The §8.1 scenario executed against the code: two calls for
`"metrics:global"` both perform their cache check (both before either
loader promise resolves), then both resume with the loader value `7`.
Returns the final shared state and both callers' outcomes. -/
def concurrentMissTrace : SharedState Int × CallState Int × CallState Int :=
  let s0 : SharedState Int := ⟨[], 0⟩
  let a1 := checkStep "metrics:global" 0 s0
  let a2 := checkStep "metrics:global" 0 a1.1
  let b1 := resumeStep "metrics:global" 0 7 a2.1
  let b2 := resumeStep "metrics:global" 0 7 b1.1
  (b2.1, b1.2, b2.2)

/-- The shared state after `n` concurrent calls for the same key have each
run their synchronous check phase, none of their loader promises having
resolved yet. -/
def iterCheck (key : String) (now : Int) : Nat → SharedState α → SharedState α
  | 0, s => s
  | n + 1, s => iterCheck key now n (checkStep key now s).1

end AnalyticsService

namespace MetricsMerge

/-!
## Client-side metrics merge (`mergeMetricSnapshots`, admin dashboard)

The delta payloads delivered by the realtime channel and the snapshots held
by the dashboard are plain JS objects. Fields the function reads or writes
by name are modelled as `Option` fields (`none` = key absent/undefined,
which is exactly what `??` and object spread distinguish); all other keys
are carried in an association-list `rest` field so that the spread
semantics `{...current, ...incoming}` stays observable. Numeric JSON
values are modelled as `Int`.
-/

/-- JS `a ?? b` on optional values. -/
def nullish (a b : Option α) : Option α :=
  match a with
  | some x => some x
  | none => b

/-- JS `{...old, ...new}` restricted to the keys neither object names
statically: any key bound in `new` wins, other keys keep `old`'s value. -/
def spreadUnion (old new : List (String × Int)) : List (String × Int) :=
  old.filter (fun p => (new.lookup p.1).isNone) ++ new

/-- A (possibly partial) `totals` object: the four counters the code names
plus any other keys, which only travel through the spreads. -/
structure TotalsObj where
  activeRfx : Option Int
  openOpportunities : Option Int
  vendorCoverage : Option Int
  anomalies : Option Int
  rest : List (String × Int)
  deriving DecidableEq, Repr

/-- A (possibly partial) metrics snapshot / delta object, covering every
key `mergeMetricSnapshots` reads or writes by name. -/
structure Snapshot where
  totals : Option TotalsObj
  metrics : Option TotalsObj
  active_rfx : Option Int
  open_opportunities : Option Int
  vendor_coverage : Option Int
  anomaly_count : Option Int
  updatedAt : Option String
  updated_at : Option String
  captured_at : Option String
  rest : List (String × Int)
  deriving DecidableEq, Repr

/-- The all-absent object `{}`. -/
def emptySnapshot : Snapshot :=
  ⟨none, none, none, none, none, none, none, none, none, []⟩

/-- The all-absent totals object `{}`. -/
def emptyTotals : TotalsObj := ⟨none, none, none, none, []⟩

/-- JS truthiness filter for the `||` chains on strings: an empty string is
falsy and falls through. -/
def truthyStr (a : Option String) : Option String :=
  match a with
  | some s => if s = "" then none else some s
  | none => none

/-- One fallback chain `t ?? flat ?? prior ?? 0` of the merged totals. -/
def totalsChain (t flat prior : Option Int) : Int :=
  (nullish t (nullish flat prior)).getD 0

/-- Shallow embedding of `mergeMetricSnapshots(current, incoming)` from the
admin-dashboard client (`src/unnamed/part_009`). `none` arguments model
`null`/`undefined` inputs (`if (!incoming) return current`; a `null`
`current` makes both `...current` and `current?.totals` vacuous).
`nowIso` is the `new Date().toISOString()` value of the final `||` chain. -/
def mergeMetricSnapshots (nowIso : String) (current incoming : Option Snapshot) :
    Option Snapshot :=
  match incoming with
  | none => current
  | some inc =>
      let cur := current.getD emptySnapshot
      let totalsSrc := (nullish inc.totals inc.metrics).getD emptyTotals
      let curTotals := cur.totals.getD emptyTotals
      some
        { totals := some
            { activeRfx := some (totalsChain totalsSrc.activeRfx inc.active_rfx
                curTotals.activeRfx)
              openOpportunities := some (totalsChain totalsSrc.openOpportunities
                inc.open_opportunities curTotals.openOpportunities)
              vendorCoverage := some (totalsChain totalsSrc.vendorCoverage
                inc.vendor_coverage curTotals.vendorCoverage)
              anomalies := some (totalsChain totalsSrc.anomalies
                inc.anomaly_count curTotals.anomalies)
              rest := spreadUnion curTotals.rest totalsSrc.rest }
          metrics := nullish inc.metrics cur.metrics
          active_rfx := nullish inc.active_rfx cur.active_rfx
          open_opportunities := nullish inc.open_opportunities cur.open_opportunities
          vendor_coverage := nullish inc.vendor_coverage cur.vendor_coverage
          anomaly_count := nullish inc.anomaly_count cur.anomaly_count
          updatedAt := some ((truthyStr inc.updatedAt).getD
            ((truthyStr inc.updated_at).getD
              ((truthyStr inc.captured_at).getD nowIso)))
          updated_at := nullish inc.updated_at cur.updated_at
          captured_at := nullish inc.captured_at cur.captured_at
          rest := spreadUnion cur.rest inc.rest }

end MetricsMerge

namespace Clustering

/-!
## `clusterPoints` (`src/api/ai/mapInsights.js`, default handler)

`clusterPoints(points, clusterRadius)` walks the point list with a
`processed` index set: each unprocessed point seeds a cluster and absorbs
every later unprocessed point within `clusterRadius * 50` miles of the
seed (the distance is always measured from the seed's original
coordinates — `point` is never reassigned in the inner loop).

The distance test `calculateDistance(...) <= clusterRadius * 50` runs
transcendental floating-point arithmetic (`Math.sin`/`cos`/`atan2`), which
has no shallow embedding; it is abstracted as an arbitrary boolean
predicate `near` on the opaque coordinate payloads, so the theorems below
hold for every outcome the float computation could produce. The cluster
fields the claim is about — `ids` and `count`, maintained in lockstep by
`ids.push` / `count += 1` — are modelled exactly; the floating-point
coordinate/score averaging feeds no branch and no claimed field, and is
omitted. -/

/-- An input point as `clusterPoints` consumes it: `id` plus opaque
coordinates (only ever passed to the distance test). -/
structure InsightPoint (κ : Type) where
  id : Int
  coords : κ

/-- The cluster bookkeeping the claim concerns: `properties.ids` and
`properties.count`. -/
structure InsightCluster where
  ids : List Int
  count : Nat
  deriving DecidableEq, Repr

/-- The inner `for (let i = index + 1; ...)` loop: walks the enumerated
tail, skipping processed indices, and absorbs each point satisfying the
distance test into the cluster, marking its index processed. -/
def absorbNearby (near : κ → κ → Bool) (seed : InsightPoint κ) :
    List (Nat × InsightPoint κ) → Finset ℕ → InsightCluster →
      InsightCluster × Finset ℕ
  | [], processed, c => (c, processed)
  | (i, p) :: rest, processed, c =>
      if i ∈ processed then absorbNearby near seed rest processed c
      else if near seed.coords p.coords then
        absorbNearby near seed rest (insert i processed)
          ⟨c.ids ++ [p.id], c.count + 1⟩
      else absorbNearby near seed rest processed c

/-- The outer `points.forEach((point, index) => ...)` loop over the
enumerated list: a processed index is skipped, otherwise it seeds a
cluster (`ids: [point.id], count: 1`), runs the inner loop on the tail,
pushes the cluster and marks the seed processed. -/
def clusterLoop (near : κ → κ → Bool) :
    List (Nat × InsightPoint κ) → Finset ℕ → List InsightCluster
  | [], _ => []
  | (idx, p) :: rest, processed =>
      if idx ∈ processed then clusterLoop near rest processed
      else
        let step := absorbNearby near p rest processed ⟨[p.id], 1⟩
        step.1 :: clusterLoop near rest (insert idx step.2)

/-- Shallow embedding of `clusterPoints(points, clusterRadius)`, with the
radius folded into the `near` predicate. -/
def clusterPoints (near : κ → κ → Bool) (points : List (InsightPoint κ)) :
    List InsightCluster :=
  clusterLoop near points.enum ∅

end Clustering

namespace AiRouter

/-- The AI router's route table (`router.post`/`router.get` calls in the
AI routes module, `src/unnamed/part_018`): method and path of every route
it registers, in registration order. -/
def aiRouteTable : List (String × String) :=
  [("POST", "/proposal"), ("POST", "/response"), ("POST", "/matches"),
   ("GET", "/map-insights"), ("GET", "/map-insights/metrics")]

end AiRouter

namespace SpecModel

/-!
## Modelled from the spec: the missing metrics-endpoint handler

`mapInsightMetricsHandler` is imported by the AI router
(`src/unnamed/part_018`) and mocked in
`src/api/__tests__/serviceRouteAlignment.test.js`, but no definition of it
exists under `src/` — `src/api/ai/mapInsights.js` exports only the default
`mapInsightsHandler`. The definitions in this namespace model that one
missing operation from the spec's words: a `getOrLoad` cache with a
60 000 ms TTL (§4.2) over the per-region key `metrics:<region>`, answering
`GET /map-insights/metrics` with the `MetricsSnapshot` alone — `200` on
success, `500` on fetch failure (§4.4, §6). The snapshot content is an
opaque type parameter `μ`. Only the missing handler is modelled: the
repository's `getMapInsights` operation — `mapInsightsHandler` behind
`GET /map-insights` — exists in `src/` and is embedded as
`MapInsights.mapInsightsHandler`; the spec's further assertion that the
two operations share one cached metrics fetch is settled against that
real handler, not against a model. -/

open AnalyticsService (Cache CacheEntry cacheGet cacheSet)

/-- Modelled from the spec: the TTL "fixed at 60 seconds … defaults to
60 000 ms" (§4.2). -/
def TTL : Int := 60000

/-- Modelled from the spec: a loader outcome — data, or the
`DataSourceError` that a store failure propagates (§4.1). -/
inductive LoadOutcome (μ : Type) where
  | ok (m : μ)
  | dataSourceError (msg : String)
  deriving DecidableEq, Repr

/-- Modelled from the spec: `getOrLoad(key, loader)` (§4.2) — a valid
entry (`now - capturedAt < TTL`) is returned without invoking the loader;
otherwise the loader runs, its result is stored with `capturedAt = now`
and returned, and a failure propagates without touching the cache. -/
def getOrLoad (now : Int) (key : String) (load : Unit → LoadOutcome μ)
    (c : Cache μ) : LoadOutcome μ × Cache μ :=
  match cacheGet c key with
  | some e =>
      if now - e.timestamp < TTL then (.ok e.data, c)
      else
        match load () with
        | .ok m => (.ok m, cacheSet c key ⟨m, now⟩)
        | .dataSourceError msg => (.dataSourceError msg, c)
  | none =>
      match load () with
      | .ok m => (.ok m, cacheSet c key ⟨m, now⟩)
      | .dataSourceError msg => (.dataSourceError msg, c)

/-- Modelled from the spec: the cached metrics fetch of the metrics
endpoint — `getOrLoad` through cache key `metrics:<region>` (§4.2,
§4.4). -/
def metricsFetch (now : Int) (region : String) (load : Unit → LoadOutcome μ)
    (c : Cache μ) : LoadOutcome μ × Cache μ :=
  getOrLoad now ("metrics:" ++ region) load c

/-- Modelled from the spec: the `GET /map-insights/metrics` response — a
status and, on success, the bare `MetricsSnapshot` body (no overlays, no
summary, no envelope). -/
structure MetricsResponse (μ : Type) where
  status : Nat
  metrics : Option μ
  deriving DecidableEq, Repr

/-- Modelled from the spec: `mapInsightMetricsHandler` /
`getMapInsightMetrics(region)` (§4.4, §6) — the same cached metrics fetch
as `getMapInsights`, answered as `200 MetricsSnapshot` or `500` on
failure. -/
def mapInsightMetricsHandler (now : Int) (region : String)
    (load : Unit → LoadOutcome μ) (c : Cache μ) : MetricsResponse μ × Cache μ :=
  match metricsFetch now region load c with
  | (.ok m, c') => (⟨200, some m⟩, c')
  | (.dataSourceError _, c') => (⟨500, none⟩, c')

end SpecModel

/-!
## Claims about `mapInsightsHandler`
-/

open MapInsights in
/-- C1 counterexample: a request on which the data store query reports the
error message "connection refused" is answered with status 400 — not
500 — and the store client's error message appears verbatim under the
`details` key of the response body, contradicting the claim that such
requests get a 500 with a generic, detail-free body. -/
theorem C1_counterexample_store_error_leaks :
    (mapInsightsHandler (σ := Unit) (η := Unit) none
        (.result (some "connection refused") none) .absent).status ≠ 500 ∧
    (mapInsightsHandler (σ := Unit) (η := Unit) none
        (.result (some "connection refused") none) .absent).status = 400 ∧
    bodyGet (mapInsightsHandler (σ := Unit) (η := Unit) none
        (.result (some "connection refused") none) .absent).body "details"
      = some (.str "connection refused") := by
  refine ⟨by decide, rfl, rfl⟩

open MapInsights in
/-- C1 amended: for every request in which the data store query reports an
error, the handler responds with status 400, the fixed message
"Unable to load map data", and a `details` field equal to the store
client's error message — the store error is leaked, not hidden, and the
status is 400, not 500. -/
theorem C1_amended_store_error_response (σ η : Type) (region : Option String)
    (msg : String) (data : Option (MapLayers σ η)) (ai : AiOutcome) :
    mapInsightsHandler region (.result (some msg) data) ai =
      ⟨400, [("error", .str "Unable to load map data"),
             ("details", .str msg)]⟩ := rfl

open MapInsights in
/-- C2 counterexample: with the store fetch succeeding and the
completion-provider call throwing, the handler responds 500 with a generic
error body — not 200 with a fallback summary — contradicting the claim
that provider exceptions never surface as a failure response. -/
theorem C2_counterexample_provider_throw_is_500 :
    mapInsightsHandler (σ := Unit) (η := Unit) none (.result none none)
        (.throws "ETIMEDOUT")
      = ⟨500, [("error", .str "Unable to generate map insights")]⟩ ∧
    (mapInsightsHandler (σ := Unit) (η := Unit) none (.result none none)
        (.throws "ETIMEDOUT")).status ≠ 200 := by
  refine ⟨rfl, by decide⟩

open MapInsights in
/-- C2 amended: for every request in which the store fetch succeeds but
the completion-provider call throws, the exception escapes to the
handler's outer catch and the response is a 500 with the fixed generic
body; the deterministic fallback summary is used only when the provider
client is absent, never on a provider exception. -/
theorem C2_amended_provider_throw_response (σ η : Type) (region : Option String)
    (data : Option (MapLayers σ η)) (msg : String) :
    mapInsightsHandler region (.result none data) (.throws msg) =
      ⟨500, [("error", .str "Unable to generate map insights")]⟩ := rfl

open MapInsights in
/-- C3 counterexample: with the provider client absent, the 200 response
carries `provider: "fallback"` — not `"system"` — and a single templated
summary string; there is no `bullets` key at all, contradicting the
claimed InsightSummary object with three templated bullets. -/
theorem C3_counterexample_fallback_shape :
    mapInsightsHandler (σ := Unit) (η := Unit) (some "emea") (.result none none)
        .absent
      = ⟨200, [("summary", .str "Region emea currently has 0 hot spots tracked."),
               ("provider", .str "fallback")]⟩ ∧
    bodyGet (mapInsightsHandler (σ := Unit) (η := Unit) (some "emea")
        (.result none none) .absent).body "provider" ≠ some (.str "system") ∧
    bodyGet (mapInsightsHandler (σ := Unit) (η := Unit) (some "emea")
        (.result none none) .absent).body "bullets" = none := by
  refine ⟨rfl, by decide, rfl⟩

open MapInsights in
/-- C3 amended: for every request served with the completion-provider
client absent, the handler responds 200 with `provider: "fallback"` and a
single summary string templated from the context region and the hotspot
count; the body has no `bullets` key and no metrics totals are consulted. -/
theorem C3_amended_fallback_response (σ η : Type) (region : Option String)
    (data : Option (MapLayers σ η)) :
    mapInsightsHandler region (.result none data) .absent =
      ⟨200, [("summary", .str (fallbackSummary (regionOrGlobal region)
               ((data.bind (fun l => l.hotspots)).getD []).length)),
             ("provider", .str "fallback")]⟩ := rfl

open MapInsights in
/-- C5 counterexample: a successful response's body holds exactly the keys
`summary` and `provider` — there is no `region`, `generatedAt`,
`overlays` or `metrics` key — contradicting the claimed
CombinedInsightPayload envelope; with no `generatedAt` produced at all
(the handler never reads a clock), two calls with identical inputs cannot
differ in it. -/
theorem C5_counterexample_no_envelope :
    ((mapInsightsHandler (σ := Unit) (η := Unit) (some "global")
        (.result none none) .absent).body.map Prod.fst
      = ["summary", "provider"]) ∧
    bodyGet (mapInsightsHandler (σ := Unit) (η := Unit) (some "global")
        (.result none none) .absent).body "generatedAt" = none ∧
    bodyGet (mapInsightsHandler (σ := Unit) (η := Unit) (some "global")
        (.result none none) .absent).body "overlays" = none ∧
    bodyGet (mapInsightsHandler (σ := Unit) (η := Unit) (some "global")
        (.result none none) .absent).body "metrics" = none := by
  refine ⟨rfl, rfl, rfl, rfl⟩

open MapInsights in
/-- C5 amended: every successful response is a flat
`{ summary?, provider }` object — the keys are exactly `summary` and
`provider` (just `provider` when the completion content is undefined) —
with no region/generatedAt/overlays/metrics envelope; the response is a
pure function of the request and collaborator outcomes, so repeated calls
with unchanged inputs return identical bodies. -/
theorem C5_amended_flat_response_shape (σ η : Type) (region : Option String)
    (data : Option (MapLayers σ η)) (content : String) :
    ((mapInsightsHandler region (.result none data) .absent).body.map Prod.fst
      = ["summary", "provider"]) ∧
    ((mapInsightsHandler region (.result none data)
        (.ok (some content))).body.map Prod.fst = ["summary", "provider"]) ∧
    ((mapInsightsHandler region (.result none data) (.ok none)).body.map Prod.fst
      = ["provider"]) := by
  refine ⟨rfl, rfl, rfl⟩

open MapInsights in
/-- C9: a request with no `region` query parameter uses the sentinel
`"global"`: the insight context it builds carries `region = "global"`, and
the whole response coincides with the response to an explicit
`region=global` request, whatever the store and provider outcomes. -/
theorem C9_absent_region_defaults_to_global (σ η : Type)
    (store : StoreOutcome σ η) (ai : AiOutcome)
    (data : Option (MapLayers σ η)) :
    (insightContext (σ := σ) (η := η) none data).region = "global" ∧
    mapInsightsHandler none store ai =
      mapInsightsHandler (some "global") store ai := by
  refine ⟨rfl, ?_⟩
  cases store with
  | throws m => rfl
  | result e d => cases e <;> cases ai <;> rfl

/-!
## Claims about `getCachedAnalytics`
-/

namespace AnalyticsService

/-- After `cacheSet c k e`, looking up `k` yields `e` (JS `Map.set` then
`Map.get`). -/
theorem cacheGet_cacheSet_self (c : Cache α) (k : String) (e : CacheEntry α) :
    cacheGet (cacheSet c k e) k = some e := by
  induction c with
  | nil => simp [cacheGet, cacheSet]
  | cons hd tl ih =>
      by_cases hk : hd.1 == k
      · simp [cacheGet, cacheSet, hk]
      · simpa [cacheGet, cacheSet, hk] using ih

/-- A check that finds a valid entry completes at once with its data and
leaves the shared state untouched. -/
theorem checkStep_hit (key : String) (now : Int) (s : SharedState α)
    (e : CacheEntry α) (hg : cacheGet s.cache key = some e)
    (hf : now - e.timestamp < CACHE_TTL) :
    checkStep key now s = (s, .done e.data) := by
  simp [checkStep, hg, hf]

/-- On an empty cache every check phase misses: `n` successive checks
leave the cache empty and count one loader invocation each. -/
theorem iterCheck_empty (key : String) (now : Int) :
    ∀ (n c0 : Nat),
      iterCheck key now n (⟨[], c0⟩ : SharedState α) = ⟨[], c0 + n⟩ := by
  intro n
  induction n with
  | zero =>
      intro c0
      simp [iterCheck]
  | succ m ih =>
      intro c0
      rw [show iterCheck key now (m + 1) (⟨[], c0⟩ : SharedState α) =
            iterCheck key now m ⟨[], c0 + 1⟩ from rfl,
          ih (c0 + 1)]
      congr 1
      omega

end AnalyticsService

open AnalyticsService in
/-- C6 counterexample: an entry captured at time 0 and read back at
`now = 100000` lies outside the claimed 60 000 ms window, yet
`getCachedAnalytics` serves its data without invoking the loader — the
claim's TTL is wrong: the constant is 5 minutes, not 60 000 ms. -/
theorem C6_counterexample_ttl_is_not_60000 :
    (getCachedAnalytics "metrics:global" (fun _ => (7 : Int)) 100000
        [("metrics:global", ⟨3, 0⟩)]).loaderInvoked = false ∧
    (getCachedAnalytics "metrics:global" (fun _ => (7 : Int)) 100000
        [("metrics:global", ⟨3, 0⟩)]).result = 3 ∧
    ¬((100000 : Int) - 0 < 60000) ∧ CACHE_TTL ≠ 60000 := by
  refine ⟨rfl, rfl, by decide, by decide⟩

open AnalyticsService in
/-- C6 amended: `getCachedAnalytics` returns the stored entry's data
without invoking the loader iff the entry satisfies
`now - capturedAt < TTL` with TTL = 300 000 ms (5 minutes, not the claimed
60 000 ms); when the entry is absent or expired it invokes the loader,
overwrites the entry with `capturedAt = now`, and returns the loader's
result, so a stale entry is never served and after the TTL elapses a
subsequent call invokes the loader again. -/
theorem C6_amended_cache_semantics (α : Type) (key : String)
    (fetchFn : Unit → α) (now : Int) (cache : Cache α) :
    CACHE_TTL = 300000 ∧
    ((getCachedAnalytics key fetchFn now cache).loaderInvoked = false ↔
      ∃ e, cacheGet cache key = some e ∧ now - e.timestamp < CACHE_TTL) ∧
    (∀ e, cacheGet cache key = some e → now - e.timestamp < CACHE_TTL →
      getCachedAnalytics key fetchFn now cache = ⟨e.data, cache, false⟩) ∧
    (∀ e, cacheGet cache key = some e → ¬(now - e.timestamp < CACHE_TTL) →
      getCachedAnalytics key fetchFn now cache =
        ⟨fetchFn (), cacheSet cache key ⟨fetchFn (), now⟩, true⟩) ∧
    (cacheGet cache key = none →
      getCachedAnalytics key fetchFn now cache =
        ⟨fetchFn (), cacheSet cache key ⟨fetchFn (), now⟩, true⟩) ∧
    cacheGet (cacheSet cache key ⟨fetchFn (), now⟩) key =
      some ⟨fetchFn (), now⟩ := by
  refine ⟨by norm_num [CACHE_TTL], ?_, ?_, ?_, ?_, cacheGet_cacheSet_self cache key _⟩
  · rcases h : cacheGet cache key with _ | e
    · simp [getCachedAnalytics, h]
    · by_cases hfresh : now - e.timestamp < CACHE_TTL
      · simp [getCachedAnalytics, h, hfresh]
      · simp [getCachedAnalytics, h, hfresh]
  · intro e he hlt
    simp [getCachedAnalytics, he, hlt]
  · intro e he hlt
    simp [getCachedAnalytics, he, hlt]
  · intro he
    simp [getCachedAnalytics, he]

open AnalyticsService in
/-- C6 amended, witness: an entry of age 400 000 ms is expired under the
actual 5-minute TTL, so the loader runs and the entry is overwritten with
the fresh capture time. -/
theorem C6_amended_cache_semantics_witness :
    getCachedAnalytics "k" (fun _ => (7 : Int)) 400000 [("k", ⟨3, 0⟩)] =
      ⟨7, [("k", ⟨7, 400000⟩)], true⟩ :=
  (C6_amended_cache_semantics Int "k" (fun _ => (7 : Int)) 400000
      [("k", ⟨3, 0⟩)]).2.2.2.1 ⟨3, 0⟩ rfl (by decide)

open AnalyticsService in
/-- C7 counterexample: in the two-call interleaving in which both cache
checks happen before either loader promise resolves (the claim's "issued
before the loader resolves" scenario, N = 2), the loader is invoked twice,
not exactly once — `getCachedAnalytics` performs no in-flight
deduplication — even though both callers do end up with the loader's
value. -/
theorem C7_counterexample_double_invocation :
    concurrentMissTrace.1.loaderInvocations = 2 ∧
    concurrentMissTrace.1.loaderInvocations ≠ 1 ∧
    concurrentMissTrace.2.1 = .done 7 ∧
    concurrentMissTrace.2.2 = .done 7 := by
  refine ⟨rfl, by decide, rfl, rfl⟩

open AnalyticsService in
/-- C7 amended: the cache deduplicates only across completed loads, not
in-flight ones: for every N, N concurrent calls for the same key whose
cache checks all precede any resumption invoke the loader once each — N
invocations in total — since every such check misses and suspends, and
resumptions never invoke the loader again while handing each caller the
loader's value; a call whose check happens instead after an earlier call
completed within the TTL is served from cache with the same value and no
further loader invocation. -/
theorem C7_amended_no_inflight_dedup (α : Type) (key : String) (v : α)
    (now₁ now₂ : Int) (N : Nat) (h : now₂ - now₁ < CACHE_TTL) :
    ((iterCheck key now₁ N (⟨[], 0⟩ : SharedState α)).loaderInvocations = N ∧
     (∀ n, n < N →
       (checkStep key now₁
         (iterCheck key now₁ n (⟨[], 0⟩ : SharedState α))).2 =
           CallState.awaitingLoader) ∧
     (∀ s : SharedState α, (resumeStep key now₁ v s).2 = CallState.done v ∧
       (resumeStep key now₁ v s).1.loaderInvocations =
         s.loaderInvocations)) ∧
    (checkStep key now₂
        ((resumeStep key now₁ v
          ((checkStep key now₁ (⟨[], 0⟩ : SharedState α)).1)).1) =
      (((resumeStep key now₁ v
          ((checkStep key now₁ (⟨[], 0⟩ : SharedState α)).1)).1), .done v) ∧
     ((resumeStep key now₁ v
        ((checkStep key now₁ (⟨[], 0⟩ : SharedState α)).1)).1).loaderInvocations
       = 1) := by
  refine ⟨⟨?_, ?_, fun s => ⟨rfl, rfl⟩⟩, ?_, rfl⟩
  · rw [iterCheck_empty key now₁ N 0]
    exact Nat.zero_add N
  · intro n hn
    rw [iterCheck_empty key now₁ n 0]
    rfl
  · exact checkStep_hit key now₂ _ ⟨v, now₁⟩ (cacheGet_cacheSet_self _ key _) h

open AnalyticsService in
/-- C7 amended, witness: three concurrent checks for `"metrics:global"`
before any resume invoke the loader three times; the sequential-dedup
hypothesis is discharged with a second check at time 1000, inside the
5-minute TTL. -/
theorem C7_amended_no_inflight_dedup_witness :
    (iterCheck "metrics:global" 0 3
      (⟨[], 0⟩ : SharedState Int)).loaderInvocations = 3 :=
  (C7_amended_no_inflight_dedup Int "metrics:global" 7 0 1000 3
    (by decide)).1.1

/-!
## Claims about `mergeMetricSnapshots`
-/

namespace MetricsMerge

/-- Reading a field of `o.getD emptyTotals` is reading through the
option, since every `emptyTotals` field is absent. -/
theorem getD_emptyTotals_field (f : TotalsObj → Option Int)
    (hf : f emptyTotals = none) (o : Option TotalsObj) :
    f (o.getD emptyTotals) = o.bind f := by
  cases o <;> simp [hf]

/-- `current?.totals`: the `totals` field of `current.getD emptySnapshot`
is `current.bind (·.totals)`. -/
theorem getD_emptySnapshot_totals (o : Option Snapshot) :
    (o.getD emptySnapshot).totals = o.bind (fun s => s.totals) := by
  cases o <;> simp [emptySnapshot]

/-- A key bound in the incoming object keeps its incoming value across the
spread `{...old, ...new}`. -/
theorem spreadUnion_lookup_incoming (old new : List (String × Int))
    (k : String) (v : Int) (h : new.lookup k = some v) :
    (spreadUnion old new).lookup k = some v := by
  induction old with
  | nil => simpa [spreadUnion] using h
  | cons hd tl ih =>
      by_cases hcond : (new.lookup hd.1).isNone
      · by_cases hk : k == hd.1
        · exfalso
          rw [← eq_of_beq hk, h] at hcond
          simp at hcond
        · simpa [spreadUnion, List.filter_cons, hcond, List.lookup, hk]
            using ih
      · simpa [spreadUnion, List.filter_cons, hcond] using ih

end MetricsMerge

open MetricsMerge in
/-- C8: merging a non-null delta into the current snapshot overwrites
top-level fields present in the delta and rebuilds each of the four
totals counters as
`delta-camelCase ?? delta-flat-snake_case ?? prior ?? 0` — all four are
always defined; in particular a delta carrying only `active_rfx: 4`
merged into an empty snapshot yields `totals.activeRfx = 4` and the
other three totals `= 0`. -/
theorem C8_merge_fallback_chain (nowIso : String) (current : Option Snapshot)
    (inc : Snapshot) :
    (∀ m, mergeMetricSnapshots nowIso current (some inc) = some m →
      (∃ t, m.totals = some t ∧
        t.activeRfx = some ((nullish
            ((nullish inc.totals inc.metrics).bind (fun o => o.activeRfx))
            (nullish inc.active_rfx
              ((current.bind (fun s => s.totals)).bind
                (fun o => o.activeRfx)))).getD 0) ∧
        t.openOpportunities = some ((nullish
            ((nullish inc.totals inc.metrics).bind
              (fun o => o.openOpportunities))
            (nullish inc.open_opportunities
              ((current.bind (fun s => s.totals)).bind
                (fun o => o.openOpportunities)))).getD 0) ∧
        t.vendorCoverage = some ((nullish
            ((nullish inc.totals inc.metrics).bind (fun o => o.vendorCoverage))
            (nullish inc.vendor_coverage
              ((current.bind (fun s => s.totals)).bind
                (fun o => o.vendorCoverage)))).getD 0) ∧
        t.anomalies = some ((nullish
            ((nullish inc.totals inc.metrics).bind (fun o => o.anomalies))
            (nullish inc.anomaly_count
              ((current.bind (fun s => s.totals)).bind
                (fun o => o.anomalies)))).getD 0) ∧
        t.activeRfx.isSome ∧ t.openOpportunities.isSome ∧
        t.vendorCoverage.isSome ∧ t.anomalies.isSome) ∧
      (∀ k val, inc.rest.lookup k = some val → m.rest.lookup k = some val) ∧
      (∀ o, inc.metrics = some o → m.metrics = some o) ∧
      (∀ x, inc.active_rfx = some x → m.active_rfx = some x)) ∧
    (∀ m, mergeMetricSnapshots nowIso (some emptySnapshot)
        (some { emptySnapshot with active_rfx := some 4 }) = some m →
      m.totals = some ⟨some 4, some 0, some 0, some 0, []⟩) := by
  have chain : ∀ (f : TotalsObj → Option Int), f emptyTotals = none →
      ∀ flat : Option Int,
      totalsChain (f ((nullish inc.totals inc.metrics).getD emptyTotals)) flat
          (f (((current.getD emptySnapshot).totals).getD emptyTotals)) =
        (nullish ((nullish inc.totals inc.metrics).bind f)
          (nullish flat
            ((current.bind (fun s => s.totals)).bind f))).getD 0 := by
    intro f hf flat
    rw [getD_emptyTotals_field f hf, getD_emptyTotals_field f hf,
        getD_emptySnapshot_totals]
    rfl
  constructor
  · intro m hm
    simp only [mergeMetricSnapshots] at hm
    injection hm with hm
    subst hm
    refine ⟨⟨_, rfl, ?_, ?_, ?_, ?_, rfl, rfl, rfl, rfl⟩, ?_, ?_, ?_⟩
    · exact congrArg some (chain (fun o => o.activeRfx) rfl inc.active_rfx)
    · exact congrArg some
        (chain (fun o => o.openOpportunities) rfl inc.open_opportunities)
    · exact congrArg some
        (chain (fun o => o.vendorCoverage) rfl inc.vendor_coverage)
    · exact congrArg some (chain (fun o => o.anomalies) rfl inc.anomaly_count)
    · intro k val hk
      exact spreadUnion_lookup_incoming _ _ k val hk
    · intro o ho
      simp only [ho]
      rfl
    · intro x hx
      simp only [hx]
      rfl
  · intro m hm
    simp only [mergeMetricSnapshots] at hm
    injection hm with hm
    subst hm
    rfl

open MetricsMerge in
/-- C8 witness: the concrete instance — a delta carrying only
`active_rfx: 4` merged into an empty snapshot produces
`totals = { activeRfx: 4, openOpportunities: 0, vendorCoverage: 0,
anomalies: 0 }`. -/
theorem C8_merge_fallback_chain_witness :
    ({ emptySnapshot with
        totals := some ⟨some 4, some 0, some 0, some 0, []⟩,
        active_rfx := some 4, updatedAt := some "t0" } : Snapshot).totals =
      some ⟨some 4, some 0, some 0, some 0, []⟩ :=
  (C8_merge_fallback_chain "t0" (some emptySnapshot)
    { emptySnapshot with active_rfx := some 4 }).2 _ rfl

/-!
## Claim about the metrics endpoint
-/

open MapInsights in
/-- C4 counterexample: the claim's "the same cached metrics fetch as
getMapInsights" presupposes that the repository's `getMapInsights` —
`mapInsightsHandler` behind `GET /map-insights` — performs a cached
metrics fetch; at a concrete successful request its response body holds
exactly the keys `summary` and `provider` and no `metrics` key at all:
`getMapInsights` fetches no metrics, so there is no metrics fetch for the
metrics endpoint to share. -/
theorem C4_counterexample_no_metrics_in_map_insights :
    ((mapInsightsHandler (σ := Unit) (η := Unit) (some "emea")
        (.result none (some ⟨some (), some [(), ()]⟩))
        (.ok (some "All quiet."))).body.map Prod.fst
      = ["summary", "provider"]) ∧
    bodyGet (mapInsightsHandler (σ := Unit) (η := Unit) (some "emea")
        (.result none (some ⟨some (), some [(), ()]⟩))
        (.ok (some "All quiet."))).body "metrics" = none := by
  refine ⟨rfl, rfl⟩

open SpecModel AiRouter MapInsights in
/-- C4 amended: the AI router registers `GET /map-insights/metrics` for
`mapInsightMetricsHandler`, whose definition is absent from the source;
modelled from the spec, it serves the `metrics:<region>` TTL-cached
fetch, answering 200 with the bare `MetricsSnapshot` (no overlays, no
summary) on success and 500 on failure — a valid cache entry is served
as is without invoking the loader, while on an absent or expired entry
the loader runs, a successful result is stored under `metrics:<region>`
with the current capture time, and a failure propagates as the 500. It
does not perform "the same cached metrics fetch as getMapInsights": the
repository's `GET /map-insights` handler performs no metrics fetch, and
none of its responses — any region, any store outcome, any provider
outcome — carries a `metrics` key. -/
theorem C4_amended_metrics_endpoint (μ : Type) (now : Int) (region : String)
    (load : Unit → LoadOutcome μ) (c : AnalyticsService.Cache μ) :
    ("GET", "/map-insights/metrics") ∈ aiRouteTable ∧
    (∀ m c', metricsFetch now region load c = (.ok m, c') →
      mapInsightMetricsHandler now region load c = (⟨200, some m⟩, c')) ∧
    (∀ e c', metricsFetch now region load c = (.dataSourceError e, c') →
      mapInsightMetricsHandler now region load c = (⟨500, none⟩, c')) ∧
    (∀ e, AnalyticsService.cacheGet c ("metrics:" ++ region) = some e →
      now - e.timestamp < TTL →
      metricsFetch now region load c = (.ok e.data, c)) ∧
    (∀ m, AnalyticsService.cacheGet c ("metrics:" ++ region) = none →
      load () = .ok m →
      metricsFetch now region load c =
        (.ok m, AnalyticsService.cacheSet c ("metrics:" ++ region)
          ⟨m, now⟩)) ∧
    (∀ e m, AnalyticsService.cacheGet c ("metrics:" ++ region) = some e →
      ¬(now - e.timestamp < TTL) → load () = .ok m →
      metricsFetch now region load c =
        (.ok m, AnalyticsService.cacheSet c ("metrics:" ++ region)
          ⟨m, now⟩)) ∧
    (∀ msg, AnalyticsService.cacheGet c ("metrics:" ++ region) = none →
      load () = .dataSourceError msg →
      metricsFetch now region load c = (.dataSourceError msg, c)) ∧
    (∀ (regionQ : Option String) (store : StoreOutcome Unit Unit)
        (ai : AiOutcome),
      bodyGet (mapInsightsHandler regionQ store ai).body "metrics" =
        none) := by
  refine ⟨by decide, ?_, ?_, ?_, ?_, ?_, ?_, ?_⟩
  · intro m c' hm
    simp [mapInsightMetricsHandler, hm]
  · intro e c' he
    simp [mapInsightMetricsHandler, he]
  · intro e hg hf
    simp [metricsFetch, getOrLoad, hg, hf]
  · intro m hg hl
    simp [metricsFetch, getOrLoad, hg, hl]
  · intro e m hg hf hl
    simp [metricsFetch, getOrLoad, hg, hf, hl]
  · intro msg hg hl
    simp [metricsFetch, getOrLoad, hg, hl]
  · intro regionQ store ai
    rcases store with msg | ⟨e, d⟩
    · rfl
    · rcases e with _ | msg
      · rcases ai with _ | content | msg
        · rfl
        · rcases content with _ | s <;> rfl
        · rfl
      · rfl

open SpecModel in
/-- C4 amended, witness: a cache holding a still-valid entry for
`metrics:global` (captured at 0, read at 5) makes the handler answer 200
with the cached snapshot and leave the cache untouched. -/
theorem C4_amended_metrics_endpoint_witness :
    mapInsightMetricsHandler 5 "global"
        (fun _ => LoadOutcome.ok (42 : Int))
        [("metrics:global", ⟨41, 0⟩)] =
      (⟨200, some 41⟩, [("metrics:global", ⟨41, 0⟩)]) :=
  (C4_amended_metrics_endpoint Int 5 "global"
      (fun _ => LoadOutcome.ok (42 : Int))
      [("metrics:global", ⟨41, 0⟩)]).2.1 41
    [("metrics:global", ⟨41, 0⟩)] rfl

/-!
## Claim about `clusterPoints`
-/

namespace Clustering

/-- Inserting an index that does not occur among a list's keys does not
change which entries pass a `key not yet processed`-style filter. -/
theorem filter_notin_insert (i : ℕ) (P : Finset ℕ)
    (l : List (ℕ × InsightPoint κ)) (hi : i ∉ l.map Prod.fst)
    (q : ℕ × InsightPoint κ → Bool) :
    l.filter (fun e => decide (e.1 ∉ insert i P) && q e) =
      l.filter (fun e => decide (e.1 ∉ P) && q e) := by
  apply List.filter_congr
  intro e he
  have hne : e.1 ≠ i := fun h => hi (h ▸ List.mem_map_of_mem Prod.fst he)
  have hiff : (e.1 ∉ insert i P) ↔ (e.1 ∉ P) := by
    simp [Finset.mem_insert, hne]
  rw [decide_eq_decide.mpr hiff]

/-- Same statement for the bare `key not yet processed` filter. -/
theorem filter_notin_insert' (i : ℕ) (P : Finset ℕ)
    (l : List (ℕ × InsightPoint κ)) (hi : i ∉ l.map Prod.fst) :
    l.filter (fun e => decide (e.1 ∉ insert i P)) =
      l.filter (fun e => decide (e.1 ∉ P)) := by
  apply List.filter_congr
  intro e he
  have hne : e.1 ≠ i := fun h => hi (h ▸ List.mem_map_of_mem Prod.fst he)
  have hiff : (e.1 ∉ insert i P) ↔ (e.1 ∉ P) := by
    simp [Finset.mem_insert, hne]
  rw [decide_eq_decide.mpr hiff]

/-- With duplicate-free keys, an entry's key survives a filter exactly
when the entry itself does. -/
theorem mem_map_fst_filter_iff {l : List (ℕ × InsightPoint κ)}
    (hnd : (l.map Prod.fst).Nodup) (q : ℕ × InsightPoint κ → Bool)
    {e : ℕ × InsightPoint κ} (he : e ∈ l) :
    e.1 ∈ (l.filter q).map Prod.fst ↔ e ∈ l.filter q := by
  constructor
  · intro hmem
    rcases List.mem_map.mp hmem with ⟨e', he', hfst⟩
    have heq : e' = e :=
      List.inj_on_of_nodup_map hnd (List.mem_of_mem_filter he') he hfst
    exact heq ▸ he'
  · exact fun h => List.mem_map_of_mem Prod.fst h

/-- Splitting a filter along a second test is a permutation of the
original filter. -/
theorem filter_and_append_perm (l : List α) (p q : α → Bool) :
    (l.filter (fun a => p a && q a) ++
      l.filter (fun a => p a && !q a)).Perm (l.filter p) := by
  induction l with
  | nil => simp
  | cons a t ih =>
      by_cases hp : p a
      · by_cases hq : q a
        · rw [List.filter_cons_of_pos (by simp [hp, hq]),
              List.filter_cons_of_neg (by simp [hq]),
              List.filter_cons_of_pos hp]
          exact ih.cons a
        · rw [List.filter_cons_of_neg (by simp [hq]),
              List.filter_cons_of_pos (by simp [hp, hq]),
              List.filter_cons_of_pos hp]
          exact List.perm_middle.trans (ih.cons a)
      · rw [List.filter_cons_of_neg (by simp [hp]),
            List.filter_cons_of_neg (by simp [hp]),
            List.filter_cons_of_neg (by simp [hp])]
        exact ih

/-- Closed form of the inner loop, on a tail with duplicate-free keys:
the absorbed entries are exactly the still-unprocessed ones passing the
distance test, in order; their ids extend the cluster, their number
extends the count, and their keys extend the processed set. -/
theorem absorbNearby_eq (near : κ → κ → Bool) (seed : InsightPoint κ) :
    ∀ (rest : List (ℕ × InsightPoint κ)) (P : Finset ℕ) (c : InsightCluster),
      (rest.map Prod.fst).Nodup →
      absorbNearby near seed rest P c =
        (⟨c.ids ++ (rest.filter (fun e => decide (e.1 ∉ P) &&
              near seed.coords e.2.coords)).map (fun e => e.2.id),
          c.count + (rest.filter (fun e => decide (e.1 ∉ P) &&
              near seed.coords e.2.coords)).length⟩,
         P ∪ ((rest.filter (fun e => decide (e.1 ∉ P) &&
              near seed.coords e.2.coords)).map Prod.fst).toFinset) := by
  intro rest
  induction rest with
  | nil =>
      intro P c _
      simp [absorbNearby]
  | cons hd tl ih =>
      rintro P c hnd
      obtain ⟨i, pt⟩ := hd
      rw [List.map_cons, List.nodup_cons] at hnd
      obtain ⟨hi, hndtl⟩ := hnd
      by_cases hP : i ∈ P
      · rw [show absorbNearby near seed ((i, pt) :: tl) P c =
              absorbNearby near seed tl P c from by simp [absorbNearby, hP],
            List.filter_cons_of_neg (by simp [hP])]
        exact ih P c hndtl
      · by_cases hnear : near seed.coords pt.coords
        · rw [show absorbNearby near seed ((i, pt) :: tl) P c =
                absorbNearby near seed tl (insert i P)
                  ⟨c.ids ++ [pt.id], c.count + 1⟩ from by
              simp [absorbNearby, hP, hnear],
              ih (insert i P) ⟨c.ids ++ [pt.id], c.count + 1⟩ hndtl,
              filter_notin_insert i P tl hi _,
              List.filter_cons_of_pos (by simp [hP, hnear])]
          simp [List.append_assoc, Finset.insert_union, Finset.union_insert]
          omega
        · rw [show absorbNearby near seed ((i, pt) :: tl) P c =
                absorbNearby near seed tl P c from by
              simp [absorbNearby, hP, hnear],
              List.filter_cons_of_neg (by simp [hP, hnear])]
          exact ih P c hndtl

/-- The inner loop keeps `count` equal to the number of collected ids. -/
theorem absorbNearby_count_ids (near : κ → κ → Bool) (seed : InsightPoint κ) :
    ∀ (rest : List (ℕ × InsightPoint κ)) (P : Finset ℕ) (c : InsightCluster),
      c.count = c.ids.length →
      (absorbNearby near seed rest P c).1.count =
        (absorbNearby near seed rest P c).1.ids.length := by
  intro rest
  induction rest with
  | nil =>
      intro P c h
      simpa [absorbNearby] using h
  | cons hd tl ih =>
      intro P c h
      obtain ⟨i, pt⟩ := hd
      by_cases hP : i ∈ P
      · rw [show absorbNearby near seed ((i, pt) :: tl) P c =
              absorbNearby near seed tl P c from by simp [absorbNearby, hP]]
        exact ih P c h
      · by_cases hnear : near seed.coords pt.coords
        · rw [show absorbNearby near seed ((i, pt) :: tl) P c =
                absorbNearby near seed tl (insert i P)
                  ⟨c.ids ++ [pt.id], c.count + 1⟩ from by
              simp [absorbNearby, hP, hnear]]
          exact ih (insert i P) _ (by simp [h])
        · rw [show absorbNearby near seed ((i, pt) :: tl) P c =
                absorbNearby near seed tl P c from by
              simp [absorbNearby, hP, hnear]]
          exact ih P c h

/-- Every cluster the outer loop emits has `count` equal to the length of
its `ids` list. -/
theorem clusterLoop_count_eq_length (near : κ → κ → Bool) :
    ∀ (l : List (ℕ × InsightPoint κ)) (P : Finset ℕ),
      ∀ c ∈ clusterLoop near l P, c.count = c.ids.length := by
  intro l
  induction l with
  | nil =>
      intro P c hc
      simp [clusterLoop] at hc
  | cons hd tl ih =>
      intro P c hc
      obtain ⟨i, pt⟩ := hd
      by_cases hP : i ∈ P
      · rw [show clusterLoop near ((i, pt) :: tl) P = clusterLoop near tl P
            from by simp [clusterLoop, hP]] at hc
        exact ih P c hc
      · rw [show clusterLoop near ((i, pt) :: tl) P =
              (absorbNearby near pt tl P ⟨[pt.id], 1⟩).1 ::
                clusterLoop near tl
                  (insert i (absorbNearby near pt tl P ⟨[pt.id], 1⟩).2)
            from by simp [clusterLoop, hP]] at hc
        rcases List.mem_cons.mp hc with hc | hc
        · exact hc ▸ absorbNearby_count_ids near pt tl P ⟨[pt.id], 1⟩ rfl
        · exact ih _ c hc

end Clustering

namespace Clustering

/-- The ids collected by the outer loop over a duplicate-free-keyed list
are a permutation of the ids of its not-yet-processed entries. -/
theorem clusterLoop_ids_perm (near : κ → κ → Bool) :
    ∀ (l : List (ℕ × InsightPoint κ)) (P : Finset ℕ),
      (l.map Prod.fst).Nodup →
      (((clusterLoop near l P).map InsightCluster.ids).flatten).Perm
        ((l.filter (fun e => decide (e.1 ∉ P))).map (fun e => e.2.id)) := by
  intro l
  induction l with
  | nil =>
      intro P _
      simp [clusterLoop]
  | cons hd tl ih =>
      intro P hnd
      obtain ⟨i, pt⟩ := hd
      rw [List.map_cons, List.nodup_cons] at hnd
      obtain ⟨hi, hndtl⟩ := hnd
      by_cases hP : i ∈ P
      · rw [show clusterLoop near ((i, pt) :: tl) P = clusterLoop near tl P
            from by simp [clusterLoop, hP],
          List.filter_cons_of_neg (by simp [hP])]
        exact ih P hndtl
      · rw [show clusterLoop near ((i, pt) :: tl) P =
              (absorbNearby near pt tl P ⟨[pt.id], 1⟩).1 ::
                clusterLoop near tl
                  (insert i (absorbNearby near pt tl P ⟨[pt.id], 1⟩).2)
            from by simp [clusterLoop, hP],
          absorbNearby_eq near pt tl P ⟨[pt.id], 1⟩ hndtl,
          List.filter_cons_of_pos (by simp [hP])]
        set M := tl.filter (fun e => decide (e.1 ∉ P) &&
          near pt.coords e.2.coords) with hM
        set K := (M.map Prod.fst).toFinset with hK
        have hperm2 := ih (insert i (P ∪ K)) hndtl
        rw [filter_notin_insert' i (P ∪ K) tl hi] at hperm2
        have hsplit : tl.filter (fun e => decide (e.1 ∉ P ∪ K)) =
            tl.filter (fun e => decide (e.1 ∉ P) &&
              !(near pt.coords e.2.coords)) := by
          apply List.filter_congr
          intro e he
          have hKmem : e.1 ∈ K ↔ (decide (e.1 ∉ P) &&
              near pt.coords e.2.coords) = true := by
            rw [hK, List.mem_toFinset, mem_map_fst_filter_iff hndtl _ he,
              List.mem_filter]
            simp [he]
          by_cases h1 : e.1 ∈ P
          · simp [h1, Finset.mem_union]
          · by_cases h2 : near pt.coords e.2.coords
            · have hKe : e.1 ∈ K := hKmem.mpr (by simp [h1, h2])
              simp [Finset.mem_union, h1, h2, hKe]
            · have hKe : e.1 ∉ K := fun hc => by
                have hx := hKmem.mp hc
                simp [h1, h2] at hx
              simp [Finset.mem_union, h1, h2, hKe]
        rw [hsplit] at hperm2
        simp only [List.map_cons, List.flatten_cons, List.singleton_append,
          List.cons_append, List.nil_append]
        refine List.Perm.cons pt.id ?_
        refine (List.Perm.append_left _ hperm2).trans ?_
        rw [← List.map_append]
        exact (filter_and_append_perm tl
          (fun e => decide (e.1 ∉ P))
          (fun e => near pt.coords e.2.coords)).map (fun e => e.2.id)

end Clustering

open Clustering in
/-- C10: `clusterPoints` assigns each input point to exactly one cluster:
over any distance predicate (abstracting the floating-point Haversine
test) the concatenation of the clusters' `ids` lists is a permutation of
the input points' ids — no id dropped, none duplicated — and the
clusters' `count` fields sum to the number of input points. -/
theorem C10_clusterPoints_partition (κ : Type) (near : κ → κ → Bool)
    (points : List (InsightPoint κ)) :
    (((clusterPoints near points).map InsightCluster.ids).flatten).Perm
      (points.map (fun q => q.id)) ∧
    ((clusterPoints near points).map InsightCluster.count).sum =
      points.length := by
  have hnd : (points.enum.map Prod.fst).Nodup := by
    rw [List.enum_map_fst]
    exact List.nodup_range points.length
  have hfilter :
      points.enum.filter (fun e => decide (e.1 ∉ (∅ : Finset ℕ))) =
        points.enum :=
    List.filter_eq_self.mpr (fun e _ => by simp)
  have hmapsnd : points.enum.map (fun e => e.2.id) =
      points.map (fun q => q.id) := by
    rw [show (fun (e : ℕ × InsightPoint κ) => e.2.id) =
        ((fun q : InsightPoint κ => q.id) ∘ Prod.snd) from rfl,
      ← List.map_map, List.enum_map_snd]
  have hperm := clusterLoop_ids_perm near points.enum ∅ hnd
  rw [hfilter, hmapsnd] at hperm
  refine ⟨hperm, ?_⟩
  have hcc : ∀ c ∈ clusterPoints near points, c.count = c.ids.length :=
    fun c hc => clusterLoop_count_eq_length near points.enum ∅ c hc
  calc ((clusterPoints near points).map InsightCluster.count).sum
      = ((clusterPoints near points).map (fun c => c.ids.length)).sum := by
        rw [List.map_congr_left hcc]
    _ = (((clusterPoints near points).map InsightCluster.ids).map
          List.length).sum := by
        rw [List.map_map]
        rfl
    _ = (((clusterPoints near points).map InsightCluster.ids).flatten).length :=
        (List.length_flatten _).symm
    _ = (points.map (fun q : InsightPoint κ => q.id)).length :=
        hperm.length_eq
    _ = points.length := by simp
